import Mathlib

/-!
Verification development for the `android-mcp-server` repository
(`server.py`): a shallow embedding of the config-loading startup code,
the five ADB tool functions, and the Termux bridge helpers, together
with theorems about their behaviour.

External effects (the device shell, the ADB client library) are modelled
as an abstract environment; each embedded operation also records the
trace of external calls it issues, in order.
-/

namespace AndroidMcp

/-! ## Constants from the top of `server.py` -/

def CONFIG_FILE : String := "config.yaml"

def CONFIG_FILE_EXAMPLE : String := "config.yaml.example"

/-! ## Config loading (module-level code, `server.py` lines 13-48)

The YAML file contents are abstracted into the shapes the code
distinguishes.  `DeviceEntry` is the value `config.get("device", {})`
inspects: the `"device"` key may be absent (the default `{}` is used,
which is falsy), may be YAML `null` (falsy), or may be a mapping, whose
`"name"` key may be absent, `null`, or a string, possibly next to other
keys (`extraKeys`); a mapping is truthy exactly when it is non-empty,
i.e. when it has a name key or extra keys. -/

inductive DeviceEntry where
  | missing
  | nullValue
  | dict (name : Option (Option String)) (extraKeys : Bool)
deriving DecidableEq, Repr

structure ConfigDict where
  device : DeviceEntry
deriving DecidableEq, Repr

/-- Outcome of reading `config.yaml` at startup.  `parseError e`
abstracts any exception raised inside the `try` block (file read
failure, YAML parse error, or an attribute error while extracting the
device entry from a malformed document), carrying the exception
message; `parsed none` is a file whose `yaml.safe_load` returns `None`
(the code replaces it by `{}` via `or {}`). -/
inductive ConfigRead where
  | absent
  | parseError (e : String)
  | parsed (top : Option ConfigDict)
deriving DecidableEq, Repr

/-- Python `str.strip()` whitespace test (space, tab, newline, carriage
return, vertical tab, form feed). -/
def isPySpace (c : Char) : Bool :=
  c = ' ' || c = '\t' || c = '\n' || c = '\r' || c = '\x0b' || c = '\x0c'

/-- Python `str.strip()`: remove leading and trailing whitespace. -/
def pyStrip (s : String) : String :=
  String.mk (((s.data.dropWhile isPySpace).reverse.dropWhile isPySpace).reverse)

/-- `configured_device_name = device_config.get("name") if device_config else None`:
a mapping is truthy when non-empty; `.get` yields `None` for a missing
key and for an explicit `null` value. -/
def configuredName : DeviceEntry → Option String
  | DeviceEntry.missing => none
  | DeviceEntry.nullValue => none
  | DeviceEntry.dict name extraKeys =>
      if name.isSome || extraKeys then name.bind id else none

/-- What the startup code does after the config inspection: exit the
process with a status code, or proceed and hand `device_name` to the
`AdbDeviceManager` constructor. -/
inductive ConfigOutcome where
  | exit (code : Nat)
  | proceed (device_name : Option String)
deriving DecidableEq, Repr

structure ConfigLoadResult where
  outcome : ConfigOutcome
  stdoutLines : List String
  stderrLines : List String
deriving DecidableEq, Repr

/-- The module-level config-loading code of `server.py` (lines 13-48),
as a function of the abstracted file-system/YAML outcome. -/
def startupConfig : ConfigRead → ConfigLoadResult
  | ConfigRead.absent =>
      ⟨ConfigOutcome.proceed none,
       ["Config file " ++ CONFIG_FILE ++ " not found, using auto-selection for device"],
       []⟩
  | ConfigRead.parseError e =>
      ⟨ConfigOutcome.exit 1,
       [],
       ["Error loading config file " ++ CONFIG_FILE ++ ": " ++ e,
        "Please check the format of your config file or recreate it from " ++
          CONFIG_FILE_EXAMPLE]⟩
  | ConfigRead.parsed top =>
      let config : ConfigDict := top.getD ⟨DeviceEntry.missing⟩
      match configuredName config.device with
      | some s =>
          if s ≠ "" ∧ pyStrip s ≠ "" then
            ⟨ConfigOutcome.proceed (some (pyStrip s)),
             ["Loaded config from " ++ CONFIG_FILE,
              "Configured device: " ++ pyStrip s],
             []⟩
          else
            ⟨ConfigOutcome.proceed none,
             ["Loaded config from " ++ CONFIG_FILE,
              "No device specified in config, will auto-select if only one device connected"],
             []⟩
      | none =>
          ⟨ConfigOutcome.proceed none,
           ["Loaded config from " ++ CONFIG_FILE,
            "No device specified in config, will auto-select if only one device connected"],
           []⟩

/-- Follows the specification wording for the device name (refinement
target for the config code): the whitespace-stripped configured name
exactly when the config file exists, parses, and contains a device name
that is non-empty after stripping; `none` in every other non-error
case. -/
def specDeviceName : ConfigRead → Option String
  | ConfigRead.parsed (some c) =>
      match c.device with
      | DeviceEntry.dict (some (some s)) _ =>
          if pyStrip s = "" then none else some (pyStrip s)
      | _ => none
  | _ => none

/-! ## The ADB device manager and the plain ADB tools

The `AdbDeviceManager` class lives in an external module; the tools in
`server.py` only forward to its methods.  It is modelled as a record of
the method results, and each tool returns its value together with the
trace of manager methods it invoked. -/

structure AdbDeviceManager where
  get_packages : String
  execute_adb_shell_command : String → String
  get_uilayout : String
  get_package_action_intents : String → List String

/-- A call to an `AdbDeviceManager` method, with its argument. -/
inductive AdbCall where
  | get_packages
  | execute_adb_shell_command (command : String)
  | get_uilayout
  | take_screenshot
  | get_package_action_intents (package_name : String)
deriving DecidableEq, Repr

/-- `mcp.server.fastmcp.Image`, as far as this code uses it. -/
structure Image where
  path : String
deriving DecidableEq, Repr

/-- Tool `get_packages` (`server.py` lines 51-59). -/
def get_packages (dm : AdbDeviceManager) : String × List AdbCall :=
  (dm.get_packages, [AdbCall.get_packages])

/-- Tool `execute_adb_shell_command` (`server.py` lines 62-71). -/
def execute_adb_shell_command (dm : AdbDeviceManager) (command : String) :
    String × List AdbCall :=
  (dm.execute_adb_shell_command command, [AdbCall.execute_adb_shell_command command])

/-- Tool `get_uilayout` (`server.py` lines 74-85). -/
def get_uilayout (dm : AdbDeviceManager) : String × List AdbCall :=
  (dm.get_uilayout, [AdbCall.get_uilayout])

/-- Tool `get_screenshot` (`server.py` lines 88-95): calls
`deviceManager.take_screenshot()` and returns
`Image(path="compressed_screenshot.png")`. -/
def get_screenshot (_dm : AdbDeviceManager) : Image × List AdbCall :=
  (Image.mk "compressed_screenshot.png", [AdbCall.take_screenshot])

/-- Tool `get_package_action_intents` (`server.py` lines 98-108). -/
def get_package_action_intents (dm : AdbDeviceManager) (package_name : String) :
    List String × List AdbCall :=
  (dm.get_package_action_intents package_name,
   [AdbCall.get_package_action_intents package_name])

/-- The names of the functions decorated with `@mcp.tool()` in
`server.py`, in source order. -/
def registeredTools : List String :=
  ["get_packages", "execute_adb_shell_command", "get_uilayout",
   "get_screenshot", "get_package_action_intents",
   "termux_exec", "termux_write_file", "termux_read_file",
   "termux_session_start"]

/-! ## Termux integration (`server.py` lines 111-259)

The only external effects of the Termux code are calls to
`deviceManager.device.shell(...)` and (in `termux_exec`) to
`deviceManager.execute_adb_shell_command(...)`.  Both may raise; the
environment gives each call either a result string or an exception
message.  A computation `Sh α` returns, for a given environment, either
a value or an uncaught exception, together with the list of external
calls it issued, in order. -/

inductive Call where
  | shell (cmd : String)
  | adbExec (command : String)
deriving DecidableEq, Repr

structure Env where
  shell : String → Except String String
  adbExec : String → Except String String

def Sh (α : Type) : Type :=
  Env → Except String α × List Call

def Sh.pure {α : Type} (a : α) : Sh α := fun _ => (Except.ok a, [])

def Sh.bind {α β : Type} (m : Sh α) (f : α → Sh β) : Sh β := fun env =>
  match m env with
  | (Except.ok a, tr) =>
      let p := f a env
      (p.1, tr ++ p.2)
  | (Except.error e, tr) => (Except.error e, tr)

/-- Issue a `device.shell(cmd)` call. -/
def Sh.shell (cmd : String) : Sh String := fun env =>
  (env.shell cmd, [Call.shell cmd])

/-- Issue a `deviceManager.execute_adb_shell_command(command)` call. -/
def Sh.adbExecCall (command : String) : Sh String := fun env =>
  (env.adbExec command, [Call.adbExec command])

/-- Python `try`/`except`: calls already issued stay issued. -/
def Sh.tryCatch {α : Type} (m : Sh α) (handler : String → Sh α) : Sh α := fun env =>
  match m env with
  | (Except.ok a, tr) => (Except.ok a, tr)
  | (Except.error e, tr) =>
      let p := handler e env
      (p.1, tr ++ p.2)

def Sh.run {α : Type} (m : Sh α) (env : Env) : Except String α × List Call :=
  m env

namespace TermuxManager

/-- `self.shared_dir` set in `TermuxManager.__init__`. -/
def shared_dir : String := "/data/local/tmp/termux_bridge"

/-- `self.termux_home` set in `TermuxManager.__init__`. -/
def termux_home : String := "/data/data/com.termux/files/home"

/-- `TermuxManager._ensure_bridge` (`server.py` lines 121-124). -/
def ensure_bridge : Sh Unit :=
  Sh.bind (Sh.shell ("mkdir -p " ++ shared_dir)) (fun _ =>
  Sh.bind (Sh.shell ("chmod 777 " ++ shared_dir)) (fun _ =>
  Sh.pure ()))

/-- The local `cmd_file` of `_execute_via_bridge_fallback`. -/
def cmd_file : String := shared_dir ++ "/cmd.sh"

/-- The local `result_file` of `_execute_via_bridge_fallback`. -/
def result_file : String := shared_dir ++ "/result.txt"

/-- The `cat` command whose output `_execute_via_bridge_fallback`
returns. -/
def cat_result_command : String :=
  "cat " ++ result_file ++ " 2>/dev/null || echo \x27No output\x27"

/-- `TermuxManager._execute_via_bridge_fallback` (`server.py` lines
145-157). -/
def execute_via_bridge_fallback (command : String) : Sh String :=
  Sh.bind ensure_bridge (fun _ =>
  Sh.bind (Sh.shell ("echo \x27" ++ command ++ "\x27 > " ++ cmd_file)) (fun _ =>
  Sh.bind (Sh.shell ("chmod +x " ++ cmd_file)) (fun _ =>
  Sh.bind (Sh.shell (cmd_file ++ " > " ++ result_file ++ " 2>&1")) (fun _ =>
  Sh.bind (Sh.shell cat_result_command) (fun result =>
  Sh.bind (Sh.shell ("rm -f " ++ cmd_file ++ " " ++ result_file)) (fun _ =>
  Sh.pure result))))))

/-- The local `broadcast_cmd` of `_execute_via_api`. -/
def broadcast_cmd (command : String) : String :=
  "am broadcast -a com.termux.api.execute_command --es script \x27" ++
    command ++ "\x27"

/-- `TermuxManager._execute_via_api` (`server.py` lines 126-143): one
broadcast attempt (the `time.sleep(0.5)` in between issues no external
call), and on any exception one fallback to the bridge method. -/
def execute_via_api (command : String) : Sh String :=
  Sh.tryCatch
    (Sh.bind (Sh.shell (broadcast_cmd command)) (fun result =>
     Sh.pure ("Command executed via Termux API: " ++ result)))
    (fun _ => execute_via_bridge_fallback command)

end TermuxManager

/-- The shell commands `_execute_via_bridge_fallback` issues on a
completed (exception-free) run, in order. -/
def bridgeCommands (command : String) : List Call :=
  [Call.shell ("mkdir -p " ++ TermuxManager.shared_dir),
   Call.shell ("chmod 777 " ++ TermuxManager.shared_dir),
   Call.shell ("echo \x27" ++ command ++ "\x27 > " ++ TermuxManager.cmd_file),
   Call.shell ("chmod +x " ++ TermuxManager.cmd_file),
   Call.shell (TermuxManager.cmd_file ++ " > " ++ TermuxManager.result_file ++ " 2>&1"),
   Call.shell TermuxManager.cat_result_command,
   Call.shell ("rm -f " ++ TermuxManager.cmd_file ++ " " ++ TermuxManager.result_file)]

/-! ## The Termux tools (`server.py` lines 164-259)

Each tool is a `try` body wrapped by an `except` branch that returns an
error string; the bodies are named separately so the exception
behaviour can be stated. -/

/-- The substring dispatch test at the top of `termux_exec`:
`any(cmd in command for cmd in ['ls','cat','echo','pwd','date','whoami'])`.
Python `in` on strings is substring containment. -/
def hasSubstring (haystack : List Char) (needle : List Char) : Bool :=
  needle.isPrefixOf haystack ||
    (match haystack with
     | [] => false
     | _ :: t => hasSubstring t needle)

def directCheck (command : String) : Bool :=
  ["ls", "cat", "echo", "pwd", "date", "whoami"].any
    (fun cmd => hasSubstring command.data cmd.data)

/-- The `try` body of tool `termux_exec` (`server.py` lines 176-183). -/
def termux_exec_body (command : String) : Sh String :=
  if directCheck command then
    Sh.bind (Sh.adbExecCall command) (fun r => Sh.pure ("ADB: " ++ r))
  else
    Sh.bind (TermuxManager.execute_via_api command) (fun result =>
    Sh.pure ("Termux: " ++ result))

/-- Tool `termux_exec` (`server.py` lines 164-186). -/
def termux_exec (command : String) : Sh String :=
  Sh.tryCatch (termux_exec_body command)
    (fun e => Sh.pure ("Error executing command: " ++ e))

/-- The `file_path` built by `termux_write_file` and
`termux_read_file`. -/
def termux_file_path (filename : String) : String :=
  TermuxManager.shared_dir ++ "/" ++ filename

/-- The `try` body of tool `termux_write_file` (`server.py` lines
201-208). -/
def termux_write_file_body (filename content : String) : Sh String :=
  Sh.bind TermuxManager.ensure_bridge (fun _ =>
  Sh.bind (Sh.shell ("echo \x27" ++ content ++ "\x27 > " ++ termux_file_path filename))
    (fun _ =>
  Sh.pure ("File written to: " ++ termux_file_path filename)))

/-- Tool `termux_write_file` (`server.py` lines 189-211). -/
def termux_write_file (filename content : String) : Sh String :=
  Sh.tryCatch (termux_write_file_body filename content)
    (fun e => Sh.pure ("Error writing file: " ++ e))

/-- The `try` body of tool `termux_read_file` (`server.py` lines
225-231). -/
def termux_read_file_body (filename : String) : Sh String :=
  Sh.bind TermuxManager.ensure_bridge (fun _ =>
  Sh.bind (Sh.shell ("cat " ++ termux_file_path filename ++
      " 2>/dev/null || echo \x27File not found\x27")) (fun content =>
  Sh.pure content))

/-- Tool `termux_read_file` (`server.py` lines 214-234). -/
def termux_read_file (filename : String) : Sh String :=
  Sh.tryCatch (termux_read_file_body filename)
    (fun e => Sh.pure ("Error reading file: " ++ e))

/-- The session marker file written by `termux_session_start`. -/
def sessionFilePath : String := TermuxManager.shared_dir ++ "/session.txt"

/-- The `try` body of tool `termux_session_start` (`server.py` lines
246-256). -/
def termux_session_start_body : Sh String :=
  Sh.bind (Sh.shell "am start -n com.termux/.app.TermuxActivity") (fun _ =>
  Sh.bind TermuxManager.ensure_bridge (fun _ =>
  Sh.bind (Sh.shell ("echo \x27Session started at $(date)\x27 > " ++ sessionFilePath))
    (fun _ =>
  Sh.pure ("Termux session started. Bridge directory: " ++ TermuxManager.shared_dir))))

/-- Tool `termux_session_start` (`server.py` lines 237-259). -/
def termux_session_start : Sh String :=
  Sh.tryCatch termux_session_start_body
    (fun e => Sh.pure ("Error starting session: " ++ e))

/-- An environment in which every external call succeeds with output
`"out"`. -/
def envAllOk : Env :=
  ⟨fun _ => Except.ok "out", fun _ => Except.ok "out"⟩

/-! ## Lexical path resolution

Formalizes the phrase "lives under the fixed shared directory" for the
file paths the Termux helpers interpolate into their shell commands: a
path lies under a directory when, after lexically resolving `.` and
`..` segments, it still has the directory as a proper prefix. -/

/-- Split a character list on `/`. -/
def splitPath : List Char → List (List Char)
  | [] => [[]]
  | c :: rest =>
      match splitPath rest with
      | s :: ss => if c = '/' then [] :: s :: ss else (c :: s) :: ss
      | [] => [[c]]

/-- Resolve `.` and `..` segments (and drop empty segments), keeping an
accumulator of the segments resolved so far, innermost first. -/
def resolveSegs : List (List Char) → List (List Char) → List (List Char)
  | acc, [] => acc.reverse
  | acc, s :: rest =>
      if s = [] ∨ s = ['.'] then resolveSegs acc rest
      else if s = ['.', '.'] then resolveSegs acc.tail rest
      else resolveSegs (s :: acc) rest

/-- Lexical normalization of an absolute POSIX path. -/
def normalizePath (p : String) : String :=
  String.mk ('/' :: List.intercalate ['/'] (resolveSegs [] (splitPath p.data)))

/-! ## Theorems -/

/-- Characterization of a completed bridge-fallback run: when every
shell call succeeds, the issued commands are exactly `bridgeCommands`
and the returned value is the device's answer to the `cat` command. -/
theorem bridge_run_eq (env : Env) (command : String)
    (h : ∀ c, ∃ o, env.shell c = Except.ok o) :
    (TermuxManager.execute_via_bridge_fallback command).run env =
      (env.shell TermuxManager.cat_result_command, bridgeCommands command) := by
  obtain ⟨o1, h1⟩ := h ("mkdir -p " ++ TermuxManager.shared_dir)
  obtain ⟨o2, h2⟩ := h ("chmod 777 " ++ TermuxManager.shared_dir)
  obtain ⟨o3, h3⟩ := h ("echo \x27" ++ command ++ "\x27 > " ++ TermuxManager.cmd_file)
  obtain ⟨o4, h4⟩ := h ("chmod +x " ++ TermuxManager.cmd_file)
  obtain ⟨o5, h5⟩ := h (TermuxManager.cmd_file ++ " > " ++
    TermuxManager.result_file ++ " 2>&1")
  obtain ⟨o6, h6⟩ := h TermuxManager.cat_result_command
  obtain ⟨o7, h7⟩ := h ("rm -f " ++ TermuxManager.cmd_file ++ " " ++
    TermuxManager.result_file)
  simp [Sh.run, TermuxManager.execute_via_bridge_fallback,
    TermuxManager.ensure_bridge, Sh.bind, Sh.shell, Sh.pure, bridgeCommands,
    h1, h2, h3, h4, h5, h6, h7]

/-- C1: each of the ADB tools `get_packages`,
`execute_adb_shell_command`, `get_uilayout`, and
`get_package_action_intents` returns exactly the value of the
corresponding `AdbDeviceManager` method, invoked once with the same
arguments, with no transformation of the result. -/
theorem adb_tools_delegate (dm : AdbDeviceManager) (command package_name : String) :
    get_packages dm = (dm.get_packages, [AdbCall.get_packages]) ∧
    execute_adb_shell_command dm command =
      (dm.execute_adb_shell_command command,
       [AdbCall.execute_adb_shell_command command]) ∧
    get_uilayout dm = (dm.get_uilayout, [AdbCall.get_uilayout]) ∧
    get_package_action_intents dm package_name =
      (dm.get_package_action_intents package_name,
       [AdbCall.get_package_action_intents package_name]) :=
  ⟨rfl, rfl, rfl, rfl⟩

/-- C2: whenever loading the config does not raise (so the process does
not exit), the device name handed to the `AdbDeviceManager` constructor
is exactly the one described by the specification: the
whitespace-stripped configured name when the file exists, parses, and
holds a name that is non-empty after stripping, and `none` in every
other case (file absent, empty YAML, device section missing or null,
name missing, null, empty, or whitespace-only). -/
theorem startup_device_name_spec (r : ConfigRead)
    (h : ∀ e, r ≠ ConfigRead.parseError e) :
    (startupConfig r).outcome = ConfigOutcome.proceed (specDeviceName r) := by
  cases r with
  | absent => rfl
  | parseError e => exact absurd rfl (h e)
  | parsed top =>
      cases top with
      | none => rfl
      | some c =>
          obtain ⟨device⟩ := c
          cases device with
          | missing => rfl
          | nullValue => rfl
          | dict name extraKeys =>
              cases name with
              | none => cases extraKeys <;> rfl
              | some n =>
                  cases n with
                  | none => rfl
                  | some s =>
                      by_cases hp : pyStrip s = ""
                      · have hno : ¬(s ≠ "" ∧ pyStrip s ≠ "") :=
                          fun hc => hc.2 hp
                        simp [startupConfig, specDeviceName, configuredName,
                          hno, hp]
                      · have hs0 : s ≠ "" := by
                          intro h0
                          subst h0
                          exact hp rfl
                        simp [startupConfig, specDeviceName, configuredName,
                          hp, hs0]

/-- Witness for C2 at a concrete parsed config with name `"  dev1 "`. -/
theorem startup_device_name_spec_witness :
    (startupConfig (ConfigRead.parsed
        (some ⟨DeviceEntry.dict (some (some "  dev1 ")) false⟩))).outcome =
      ConfigOutcome.proceed (specDeviceName (ConfigRead.parsed
        (some ⟨DeviceEntry.dict (some (some "  dev1 ")) false⟩))) :=
  startup_device_name_spec
    (ConfigRead.parsed (some ⟨DeviceEntry.dict (some (some "  dev1 ")) false⟩))
    (fun e hx => by cases hx)

/-- C8: exactly nine functions are registered as tools: the five ADB
operations and the four Termux helpers, and no others. -/
theorem registered_tools_exact :
    registeredTools =
      ["get_packages", "execute_adb_shell_command", "get_uilayout",
       "get_screenshot", "get_package_action_intents"] ++
      ["termux_exec", "termux_write_file", "termux_read_file",
       "termux_session_start"] ∧
    registeredTools.length = 9 ∧ registeredTools.Nodup := by
  refine ⟨rfl, rfl, ?_⟩
  decide

/-- C9: if `config.yaml` exists but reading, parsing, or extracting the
device entry raises, the process prints error messages to stderr and
exits with status 1; it does not proceed with auto-selection. -/
theorem config_error_exits (e : String) :
    startupConfig (ConfigRead.parseError e) =
      ⟨ConfigOutcome.exit 1, [],
       ["Error loading config file " ++ CONFIG_FILE ++ ": " ++ e,
        "Please check the format of your config file or recreate it from " ++
          CONFIG_FILE_EXAMPLE]⟩ :=
  rfl

/-- C10: `get_screenshot` invokes the device manager's
`take_screenshot` and returns an `Image` whose path is the fixed string
`"compressed_screenshot.png"`, for every device manager. -/
theorem get_screenshot_fixed_path (dm : AdbDeviceManager) :
    get_screenshot dm =
      (Image.mk "compressed_screenshot.png", [AdbCall.take_screenshot]) :=
  rfl

/-- C5: on an exception-free run, `_execute_via_bridge_fallback` issues
exactly, in order: `mkdir -p` and `chmod 777` on the shared directory,
`echo` of the command into `cmd.sh`, `chmod +x cmd.sh`, execution of
`cmd.sh` with output redirected to `result.txt`, `cat` of `result.txt`
(yielding `No output` if unreadable), and removal of both files; its
return value is the output of the `cat` step. -/
theorem bridge_fallback_sequence (env : Env) (command : String)
    (h : ∀ c, ∃ o, env.shell c = Except.ok o) :
    (TermuxManager.execute_via_bridge_fallback command).run env =
      (env.shell TermuxManager.cat_result_command, bridgeCommands command) :=
  bridge_run_eq env command h

/-- Witness for C5 at a concrete command and an all-succeeding
environment. -/
theorem bridge_fallback_sequence_witness :
    (TermuxManager.execute_via_bridge_fallback "uname -a").run envAllOk =
      (Except.ok "out", bridgeCommands "uname -a") :=
  (bridge_fallback_sequence envAllOk "uname -a" (fun _ => ⟨"out", rfl⟩)).trans rfl

/-- C4: `_execute_via_api` attempts the broadcast shell invocation at
most once; when it succeeds, nothing else runs, and on any exception it
runs `_execute_via_bridge_fallback` exactly once, with no step on
either path retried. -/
theorem execute_via_api_single_fallback (env : Env) (command : String) :
    (TermuxManager.execute_via_api command).run env =
      match env.shell (TermuxManager.broadcast_cmd command) with
      | Except.ok r =>
          (Except.ok ("Command executed via Termux API: " ++ r),
           [Call.shell (TermuxManager.broadcast_cmd command)])
      | Except.error _ =>
          (((TermuxManager.execute_via_bridge_fallback command).run env).1,
           Call.shell (TermuxManager.broadcast_cmd command) ::
             ((TermuxManager.execute_via_bridge_fallback command).run env).2) := by
  cases hb : env.shell (TermuxManager.broadcast_cmd command) with
  | ok r =>
      simp [Sh.run, TermuxManager.execute_via_api, Sh.tryCatch, Sh.bind,
        Sh.shell, Sh.pure, hb]
  | error e =>
      simp [Sh.run, TermuxManager.execute_via_api, Sh.tryCatch, Sh.bind,
        Sh.shell, Sh.pure, hb]

/-- C3: `termux_exec` dispatches on substring containment: any command
containing one of `ls`, `cat`, `echo`, `pwd`, `date`, `whoami` anywhere
(so also inside a longer word, e.g. `update` and `tools`) goes through
the plain ADB shell with its output prefixed `ADB: ` and never touches
the Termux API path; any other command goes through the Termux API path
with its result prefixed `Termux: `. -/
theorem termux_exec_dispatch (env : Env) (command : String) :
    ((termux_exec command).run env =
      if directCheck command then
        match env.adbExec command with
        | Except.ok r => (Except.ok ("ADB: " ++ r), [Call.adbExec command])
        | Except.error e =>
            (Except.ok ("Error executing command: " ++ e), [Call.adbExec command])
      else
        match (TermuxManager.execute_via_api command).run env with
        | (Except.ok r, tr) => (Except.ok ("Termux: " ++ r), tr)
        | (Except.error e, tr) =>
            (Except.ok ("Error executing command: " ++ e), tr)) ∧
    directCheck "update" = true ∧ directCheck "tools" = true := by
  refine ⟨?_, by decide, by decide⟩
  by_cases hd : directCheck command
  · cases ha : env.adbExec command with
    | ok r =>
        simp [termux_exec, termux_exec_body, hd, Sh.run, Sh.tryCatch, Sh.bind,
          Sh.adbExecCall, Sh.pure, ha]
    | error e =>
        simp [termux_exec, termux_exec_body, hd, Sh.run, Sh.tryCatch, Sh.bind,
          Sh.adbExecCall, Sh.pure, ha]
  · rcases hapi : TermuxManager.execute_via_api command env with ⟨res, tr⟩
    cases res with
    | ok r =>
        simp [termux_exec, termux_exec_body, hd, Sh.run, Sh.tryCatch, Sh.bind,
          Sh.pure, hapi]
    | error e =>
        simp [termux_exec, termux_exec_body, hd, Sh.run, Sh.tryCatch, Sh.bind,
          Sh.pure, hapi]

/-- C7: none of the four Termux tools lets an exception escape: each
always yields an `Except.ok` string, and when its `try` body raises,
the returned string is the corresponding error message, which begins
with `Error `. -/
theorem termux_tools_catch_all (env : Env)
    (command filename content e : String) :
    (((termux_exec command).run env).1 =
      Except.ok (match ((termux_exec_body command).run env).1 with
        | Except.ok r => r
        | Except.error ex => "Error executing command: " ++ ex)) ∧
    (((termux_write_file filename content).run env).1 =
      Except.ok (match ((termux_write_file_body filename content).run env).1 with
        | Except.ok r => r
        | Except.error ex => "Error writing file: " ++ ex)) ∧
    (((termux_read_file filename).run env).1 =
      Except.ok (match ((termux_read_file_body filename).run env).1 with
        | Except.ok r => r
        | Except.error ex => "Error reading file: " ++ ex)) ∧
    ((termux_session_start.run env).1 =
      Except.ok (match (termux_session_start_body.run env).1 with
        | Except.ok r => r
        | Except.error ex => "Error starting session: " ++ ex)) ∧
    (∃ t, "Error executing command: " ++ e = "Error " ++ t) ∧
    (∃ t, "Error writing file: " ++ e = "Error " ++ t) ∧
    (∃ t, "Error reading file: " ++ e = "Error " ++ t) ∧
    (∃ t, "Error starting session: " ++ e = "Error " ++ t) := by
  have h1 : ("Error " ++ "executing command: " : String) =
      "Error executing command: " := by decide
  have h2 : ("Error " ++ "writing file: " : String) =
      "Error writing file: " := by decide
  have h3 : ("Error " ++ "reading file: " : String) =
      "Error reading file: " := by decide
  have h4 : ("Error " ++ "starting session: " : String) =
      "Error starting session: " := by decide
  refine ⟨?_, ?_, ?_, ?_,
    ⟨"executing command: " ++ e, by rw [← String.append_assoc, h1]⟩,
    ⟨"writing file: " ++ e, by rw [← String.append_assoc, h2]⟩,
    ⟨"reading file: " ++ e, by rw [← String.append_assoc, h3]⟩,
    ⟨"starting session: " ++ e, by rw [← String.append_assoc, h4]⟩⟩
  · rcases hb : termux_exec_body command env with ⟨res, tr⟩
    cases res <;> simp [termux_exec, Sh.run, Sh.tryCatch, Sh.pure, hb]
  · rcases hb : termux_write_file_body filename content env with ⟨res, tr⟩
    cases res <;> simp [termux_write_file, Sh.run, Sh.tryCatch, Sh.pure, hb]
  · rcases hb : termux_read_file_body filename env with ⟨res, tr⟩
    cases res <;> simp [termux_read_file, Sh.run, Sh.tryCatch, Sh.pure, hb]
  · rcases hb : termux_session_start_body env with ⟨res, tr⟩
    cases res <;> simp [termux_session_start, Sh.run, Sh.tryCatch, Sh.pure, hb]

/-- C6 (counterexample): the claim that every file a Termux helper
creates lives under the shared directory fails at
`termux_write_file("../evil", ...)`: the constructed path lexically
resolves to `/data/local/tmp/evil`, which is outside
`/data/local/tmp/termux_bridge/`; a plain filename, by contrast, stays
inside. -/
theorem termux_bridge_escape_counterexample :
    normalizePath (termux_file_path "../evil") = "/data/local/tmp/evil" ∧
    (TermuxManager.shared_dir ++ "/").data.isPrefixOf
      (normalizePath (termux_file_path "../evil")).data = false ∧
    normalizePath (termux_file_path "evil") =
      TermuxManager.shared_dir ++ "/evil" := by
  decide

/-- C6 (amended): on a completed run the final shell command of
`_execute_via_bridge_fallback` removes the `cmd.sh` and `result.txt` it
created, and every file path the Termux helpers construct is the fixed
shared directory `/data/local/tmp/termux_bridge` followed by `/` and a
suffix (though a filename containing `..` segments resolves outside the
directory). -/
theorem termux_bridge_paths (command filename : String) :
    ((TermuxManager.execute_via_bridge_fallback command).run envAllOk).2.getLast? =
      some (Call.shell ("rm -f " ++ TermuxManager.cmd_file ++ " " ++
        TermuxManager.result_file)) ∧
    (∃ r, TermuxManager.cmd_file = TermuxManager.shared_dir ++ "/" ++ r) ∧
    (∃ r, TermuxManager.result_file = TermuxManager.shared_dir ++ "/" ++ r) ∧
    (∃ r, termux_file_path filename = TermuxManager.shared_dir ++ "/" ++ r) ∧
    (∃ r, sessionFilePath = TermuxManager.shared_dir ++ "/" ++ r) ∧
    TermuxManager.shared_dir = "/data/local/tmp/termux_bridge" := by
  refine ⟨?_, ⟨"cmd.sh", by decide⟩, ⟨"result.txt", by decide⟩,
    ⟨filename, rfl⟩, ⟨"session.txt", by decide⟩, rfl⟩
  rw [bridge_run_eq envAllOk command (fun _ => ⟨"out", rfl⟩)]
  rfl

end AndroidMcp
